import Mathlib

/-!
Verification of the behavior-simulation core of the VIP_2025 repository
(`src/Try1/src/simulation/`): the connection registry (`ipc_manager.py`),
the device actors (`network_node.py`) and the scenario orchestrator
(`simulator.py`).

Modelling conventions:
- Python dicts (which preserve insertion order and have unique keys) are
  modelled by the association list `Dict` below; `Dict.set` replaces an
  existing binding in place, `Dict.erase` models `del d[k]`.
- Python floats are modelled by exact rationals; the only float arithmetic
  the claims touch (latency and loss formulas) is exact in the claimed
  identities.
- Wall-clock timestamps (`time.time()`) are modelled by a monotone counter
  threaded through the state; the integer `int(time.time())` used as an
  LSA sequence number is an explicit `Nat` argument.
- `random.random()` draws are modelled by an explicit boolean oracle,
  `random.sample` and `random.choice` by explicit index arguments.
- Python object aliasing (the two directional connection-table entries
  point at one shared `Connection` object) is modelled by a heap of
  connections indexed by `Nat` ids plus a table from ordered pairs to ids.
-/

namespace NetSim

/-- Association-list model of a Python dict: insertion order preserved,
`set` replaces in place, first binding wins on lookup. -/
def Dict (α β : Type) : Type := List (α × β)

instance {α β : Type} [DecidableEq α] [DecidableEq β] : DecidableEq (Dict α β) :=
  inferInstanceAs (DecidableEq (List (α × β)))

instance {α β : Type} [Repr α] [Repr β] : Repr (Dict α β) :=
  inferInstanceAs (Repr (List (α × β)))

instance {α β : Type} : Inhabited (Dict α β) := ⟨([] : List (α × β))⟩

instance {α β : Type} : Membership (α × β) (Dict α β) :=
  inferInstanceAs (Membership (α × β) (List (α × β)))

def Dict.find {α β : Type} [DecidableEq α] : Dict α β → α → Option β
  | [], _ => none
  | (k1, v1) :: m, k => if k1 = k then some v1 else Dict.find m k

def Dict.set {α β : Type} [DecidableEq α] : Dict α β → α → β → Dict α β
  | [], k, v => [(k, v)]
  | (k1, v1) :: m, k, v => if k1 = k then (k, v) :: m else (k1, v1) :: Dict.set m k v

def Dict.erase {α β : Type} [DecidableEq α] (m : Dict α β) (k : α) : Dict α β :=
  List.filter (fun p => decide (p.1 ≠ k)) m

def Dict.mapVal {α β : Type} (f : β → β) (m : Dict α β) : Dict α β :=
  List.map (fun p => (p.1, f p.2)) m

def Dict.keys {α β : Type} (m : Dict α β) : List α :=
  List.map Prod.fst m

/-- Keys of the entries whose key/value satisfy `p`, in insertion order. -/
def Dict.keysWhere {α β : Type} (m : Dict α β) (p : α → β → Bool) : List α :=
  List.map Prod.fst (List.filter (fun q => p q.1 q.2) m)

def Dict.values {α β : Type} (m : Dict α β) : List β :=
  List.map Prod.snd m

theorem Dict.find_set_self {α β : Type} [DecidableEq α] (m : Dict α β) (k : α) (v : β) :
    (m.set k v).find k = some v := by
  induction m with
  | nil => simp [Dict.set, Dict.find]
  | cons p m ih =>
    obtain ⟨k1, v1⟩ := p
    by_cases h : k1 = k
    · simp [Dict.set, Dict.find, h]
    · simp [Dict.set, Dict.find, h, ih]

theorem Dict.find_set_ne {α β : Type} [DecidableEq α] (m : Dict α β) (k k' : α) (v : β)
    (h : k' ≠ k) : (m.set k v).find k' = m.find k' := by
  have hkk : ¬ k = k' := fun hh => h hh.symm
  induction m with
  | nil => simp [Dict.set, Dict.find, hkk]
  | cons p m ih =>
    obtain ⟨k1, v1⟩ := p
    by_cases h1 : k1 = k
    · subst h1
      simp [Dict.set, Dict.find, hkk]
    · by_cases h2 : k1 = k'
      · simp [Dict.set, Dict.find, h1, h2, h]
      · simp [Dict.set, Dict.find, h1, h2, ih]

theorem Dict.find_erase {α β : Type} [DecidableEq α] (m : Dict α β) (k k' : α) :
    (m.erase k).find k' = if k' = k then none else m.find k' := by
  induction m with
  | nil => simp [Dict.erase, Dict.find]
  | cons p m ih =>
    obtain ⟨k1, v1⟩ := p
    by_cases h1 : k1 = k
    · have herase : Dict.erase ((k1, v1) :: m) k = Dict.erase m k := by
        simp [Dict.erase, List.filter_cons, h1]
      rw [herase, ih]
      by_cases h2 : k' = k
      · simp [h2]
      · have hne : ¬ k1 = k' := by rw [h1]; exact fun hh => h2 hh.symm
        simp [Dict.find, h2, hne]
    · have herase : Dict.erase ((k1, v1) :: m) k = (k1, v1) :: Dict.erase m k := by
        simp [Dict.erase, List.filter_cons, h1]
      rw [herase]
      by_cases h2 : k1 = k'
      · have hk : ¬ k' = k := by rw [← h2]; exact h1
        simp [Dict.find, h2, hk]
      · simp [Dict.find, h2, ih]

theorem Dict.find_mapVal {α β : Type} [DecidableEq α] (f : β → β) (m : Dict α β) (k : α) :
    (m.mapVal f).find k = (m.find k).map f := by
  induction m with
  | nil => simp [Dict.mapVal, Dict.find]
  | cons p m ih =>
    obtain ⟨k1, v1⟩ := p
    simp only [Dict.mapVal] at ih ⊢
    by_cases h : k1 = k
    · simp [Dict.find, h]
    · simp [Dict.find, List.map_cons, h]
      simpa using ih

theorem Dict.mem_of_find_eq_some {α β : Type} [DecidableEq α] {m : Dict α β} {k : α} {v : β}
    (h : m.find k = some v) : (k, v) ∈ m := by
  induction m with
  | nil => simp [Dict.find] at h
  | cons p m ih =>
    obtain ⟨k1, v1⟩ := p
    by_cases h1 : k1 = k
    · subst h1
      simp [Dict.find] at h
      subst h
      exact List.mem_cons_self _ _
    · simp [Dict.find, h1] at h
      exact List.mem_cons_of_mem _ (ih h)

theorem Dict.find_eq_some_of_mem {α β : Type} [DecidableEq α] {m : Dict α β} {k : α} {v : β}
    (hnd : (Dict.keys m).Nodup) (h : (k, v) ∈ m) : m.find k = some v := by
  induction m with
  | nil => cases h
  | cons p m ih =>
    obtain ⟨k1, v1⟩ := p
    have hnd1 : k1 ∉ List.map Prod.fst m ∧ (List.map Prod.fst m).Nodup := by
      simpa [Dict.keys, List.nodup_cons] using hnd
    rcases List.mem_cons.mp h with h0 | h0
    · rw [Prod.mk.injEq] at h0
      obtain ⟨h0k, h0v⟩ := h0
      subst h0k
      subst h0v
      simp [Dict.find]
    · have hkmem : k ∈ List.map Prod.fst m := by
        simpa using List.mem_map_of_mem Prod.fst h0
      have hne : k1 ≠ k := fun hh => hnd1.1 (hh ▸ hkmem)
      rw [show Dict.find ((k1, v1) :: m) k = Dict.find m k by simp [Dict.find, hne]]
      exact ih hnd1.2 h0

/-! ## Connection registry (`src/Try1/src/simulation/ipc_manager.py`) -/

/-- `Connection` dataclass (ipc_manager.py lines 13-23).  Latency and packet
loss are floats in the source, modelled as exact rationals. -/
structure Connection where
  node1 : String
  node2 : String
  interface1 : String
  interface2 : String
  enabled : Bool := true
  bandwidth : Option String := none
  latency : ℚ := 1 / 1000
  packet_loss : ℚ := 0
deriving DecidableEq, Repr, Inhabited

/-- A network message: the tagged-union payload dictionaries built in
`network_node.py`, flattened into one record (`type` is `msgType`; absent
dict keys are `none` / `[]`). -/
structure Msg where
  msgType : String
  source : String := ""
  target : Option String := none
  source_ip : Option String := none
  target_ip : Option String := none
  iface : Option String := none
  ip : Option String := none
  mac : Option String := none
  process_id : Option String := none
  area : Option String := none
  router_id : Option String := none
  networks : List String := []
  sequence : Option Nat := none
deriving DecidableEq, Repr, Inhabited

/-- The envelope placed on the central processing queue by `send_message`
(ipc_manager.py lines 146-152).  The `connection` entry holds a reference to
the shared `Connection` object; we model the reference as the heap id.  The
wall-clock `timestamp` entry is never read by the processing code and is not
modelled. -/
structure IPCMessage where
  source : String
  target : String
  message : Msg
  connId : Nat
deriving DecidableEq, Repr, Inhabited

/-- State of an `IPCManager` (ipc_manager.py lines 29-52).  Python's
`self.connections` maps ordered pairs to shared mutable `Connection`
objects; we model the objects as a heap `connStore` indexed by `Nat` ids and
let `connections` map each ordered pair to an id, so that the aliasing of
the two directional entries is explicit.  `message_queue` is the central
`queue.Queue()` (created without `maxsize`, hence unbounded); `node_queues`
are the per-node inbound queues (`maxsize=100`).  The `queued` statistic is
initialised to 0 and never updated by the source. -/
structure IPCState where
  connections : Dict (String × String) Nat
  connStore : Dict Nat Connection
  nextId : Nat
  node_queues : Dict String (List Msg)
  message_queue : List IPCMessage
  sent : Nat
  delivered : Nat
  dropped : Nat
  queued : Nat
  running : Bool
deriving DecidableEq, Repr, Inhabited

/-- Capacity of each per-node inbound queue (`queue.Queue(maxsize=100)`,
ipc_manager.py line 123). -/
def nodeQueueCapacity : Nat := 100

/-- A freshly constructed `IPCManager`: `__init__` calls `start()`, so
`running` is true. -/
def initIPC : IPCState :=
  { connections := [], connStore := [], nextId := 0, node_queues := [],
    message_queue := [], sent := 0, delivered := 0, dropped := 0, queued := 0,
    running := true }

/-- `_ensure_node_queue` (ipc_manager.py lines 120-123). -/
def IPCState.ensure_node_queue (s : IPCState) (node_name : String) : IPCState :=
  if (s.node_queues.find node_name).isSome then s
  else { s with node_queues := s.node_queues.set node_name [] }

/-- `create_connection` (ipc_manager.py lines 85-118): builds one
`Connection` object and stores it under both directional keys, then ensures
both inbound queues exist.  The keyword arguments default to
`bandwidth=None`, `latency=0.001`, `packet_loss=0.0`. -/
def IPCState.create_connection (s : IPCState) (node1 node2 interface1 interface2 : String)
    (bandwidth : Option String := none) (latency : ℚ := 1 / 1000)
    (packet_loss : ℚ := 0) : IPCState :=
  let connection : Connection :=
    { node1 := node1, node2 := node2, interface1 := interface1, interface2 := interface2,
      bandwidth := bandwidth, latency := latency, packet_loss := packet_loss }
  let i := s.nextId
  let s1 := { s with
    connections := (s.connections.set (node1, node2) i).set (node2, node1) i,
    connStore := s.connStore.set i connection,
    nextId := i + 1 }
  (s1.ensure_node_queue node1).ensure_node_queue node2

/-- The `Connection` object reached through the key `(a, b)`, i.e. Python's
`self.connections.get((a, b))`. -/
def IPCState.connectionAt (s : IPCState) (a b : String) : Option Connection :=
  (s.connections.find (a, b)).bind (fun i => s.connStore.find i)

/-- Mutate the `Connection` object referenced by the directional key `key`
(`self.connections[key].field = value`); no-op when the key is absent. -/
def IPCState.updateConnAt (s : IPCState) (key : String × String)
    (f : Connection → Connection) : IPCState :=
  match s.connections.find key with
  | none => s
  | some i =>
    match s.connStore.find i with
    | none => s
    | some c => { s with connStore := s.connStore.set i (f c) }

/-- `disable_connection` (ipc_manager.py lines 194-211): sets `enabled`
False through both directional keys. -/
def IPCState.disable_connection (s : IPCState) (node1 node2 : String) : IPCState :=
  (s.updateConnAt (node1, node2) (fun c => { c with enabled := false })).updateConnAt
    (node2, node1) (fun c => { c with enabled := false })

/-- `enable_connection` (ipc_manager.py lines 213-230). -/
def IPCState.enable_connection (s : IPCState) (node1 node2 : String) : IPCState :=
  (s.updateConnAt (node1, node2) (fun c => { c with enabled := true })).updateConnAt
    (node2, node1) (fun c => { c with enabled := true })

/-- `enable_all_connections` (ipc_manager.py lines 232-237): iterates over
every stored `Connection` object. -/
def IPCState.enable_all_connections (s : IPCState) : IPCState :=
  { s with connStore := s.connStore.mapVal (fun c => { c with enabled := true }) }

/-- The optional keyword arguments of `set_connection_properties`. -/
structure ConnProps where
  latency : Option ℚ := none
  packet_loss : Option ℚ := none
  bandwidth : Option (Option String) := none
deriving DecidableEq, Repr

def applyProps (props : ConnProps) (c : Connection) : Connection :=
  let c1 := match props.latency with
    | some l => { c with latency := l }
    | none => c
  let c2 := match props.packet_loss with
    | some p => { c1 with packet_loss := p }
    | none => c1
  match props.bandwidth with
  | some b => { c2 with bandwidth := b }
  | none => c2

/-- `set_connection_properties` (ipc_manager.py lines 356-378): updates the
object found under each of the two directional keys in turn. -/
def IPCState.set_connection_properties (s : IPCState) (node1 node2 : String)
    (props : ConnProps) : IPCState :=
  (s.updateConnAt (node1, node2) (applyProps props)).updateConnAt
    (node2, node1) (applyProps props)

/-- `simulate_congestion` (ipc_manager.py lines 380-402). -/
def IPCState.simulate_congestion (s : IPCState) (node1 node2 : String)
    (congestion_level : ℚ) : IPCState :=
  let base_latency : ℚ := 1 / 1000
  let base_packet_loss : ℚ := 0
  let new_latency := base_latency * (1 + congestion_level * 10)
  let new_packet_loss := base_packet_loss + congestion_level * (1 / 10)
  s.set_connection_properties node1 node2
    { latency := some new_latency,
      packet_loss := some (min new_packet_loss (1 / 2)) }

/-- `clear_congestion` (ipc_manager.py lines 404-411): resets every stored
connection to 1 ms latency and zero loss. -/
def IPCState.clear_congestion (s : IPCState) : IPCState :=
  { s with connStore :=
      s.connStore.mapVal (fun c => { c with latency := 1 / 1000, packet_loss := 0 }) }

/-- `send_message` (ipc_manager.py lines 125-160).  Returns the new state
and the boolean result.  The central `message_queue` has no `maxsize`, so
its `put_nowait` never raises `queue.Full`; the `except` branch of the
source is unreachable and the append is modelled as always succeeding. -/
def IPCState.send_message (s : IPCState) (source target : String) (message : Msg) :
    IPCState × Bool :=
  if s.running = false then (s, false)
  else
    match s.connections.find (source, target) with
    | none => ({ s with dropped := s.dropped + 1 }, false)
    | some i =>
      match s.connStore.find i with
      | none => ({ s with dropped := s.dropped + 1 }, false)
      | some connection =>
        if connection.enabled = false then
          ({ s with dropped := s.dropped + 1 }, false)
        else
          ({ s with
              message_queue := s.message_queue ++
                [{ source := source, target := target, message := message, connId := i }],
              sent := s.sent + 1 }, true)

/-- `get_neighbors` (ipc_manager.py lines 175-192): targets of enabled
connections whose source component equals `node`, in table order. -/
def IPCState.get_neighbors (s : IPCState) (node : String) : List String :=
  List.filterMap (fun (p : (String × String) × Nat) =>
    if p.1.1 = node then
      match s.connStore.find p.2 with
      | some c => if c.enabled then some p.1.2 else none
      | none => none
    else none) s.connections

/-- `broadcast_from_node` (ipc_manager.py lines 162-173): resolves the
neighbor list once, then sends to each neighbor in order. -/
def IPCState.broadcast_from_node (s : IPCState) (source : String) (message : Msg) :
    IPCState :=
  (s.get_neighbors source).foldl (fun st nb => (st.send_message source nb message).1) s

/-- `_deliver_message` (ipc_manager.py lines 274-287): missing queue or full
queue counts a drop, otherwise the message is appended and counted as
delivered. -/
def IPCState.deliver_message (s : IPCState) (target : String) (message : Msg) : IPCState :=
  match s.node_queues.find target with
  | none => { s with dropped := s.dropped + 1 }
  | some q =>
    if nodeQueueCapacity ≤ q.length then { s with dropped := s.dropped + 1 }
    else { s with node_queues := s.node_queues.set target (q ++ [message]),
                  delivered := s.delivered + 1 }

/-- `_process_message` (ipc_manager.py lines 253-272).  The latency sleep is
pure timing and has no modelled effect.  `lost` is the outcome of the draw
`random.random() < connection.packet_loss`, consulted only when the current
`packet_loss` of the referenced connection object is positive. -/
def IPCState.process_message (s : IPCState) (im : IPCMessage) (lost : Bool) : IPCState :=
  let pl : ℚ := match s.connStore.find im.connId with
    | some c => c.packet_loss
    | none => 0
  if 0 < pl ∧ lost = true then { s with dropped := s.dropped + 1 }
  else s.deliver_message im.target im.message

def processMsgs (oracle : Nat → Bool) : IPCState → List IPCMessage → Nat → IPCState
  | s, [], _ => s
  | s, im :: rest, n => processMsgs oracle (s.process_message im (oracle n)) rest (n + 1)

/-- The background `_message_processor` (ipc_manager.py lines 239-251) after
it has drained the central queue: every queued envelope is processed in FIFO
order; `oracle n` is the `n`-th packet-loss draw. -/
def IPCState.settle (s : IPCState) (oracle : Nat → Bool) : IPCState :=
  processMsgs oracle { s with message_queue := [] } s.message_queue 0

/-- The six registry operations quantified over by the bidirectional-table
invariant claim. -/
inductive IPCOp where
  | create (n1 n2 i1 i2 : String) (bw : Option String) (lat pl : ℚ)
  | disable (n1 n2 : String)
  | enable (n1 n2 : String)
  | enableAll
  | setProps (n1 n2 : String) (props : ConnProps)
  | congestion (n1 n2 : String) (level : ℚ)

def applyOp (s : IPCState) : IPCOp → IPCState
  | IPCOp.create n1 n2 i1 i2 bw lat pl => s.create_connection n1 n2 i1 i2 bw lat pl
  | IPCOp.disable n1 n2 => s.disable_connection n1 n2
  | IPCOp.enable n1 n2 => s.enable_connection n1 n2
  | IPCOp.enableAll => s.enable_all_connections
  | IPCOp.setProps n1 n2 props => s.set_connection_properties n1 n2 props
  | IPCOp.congestion n1 n2 level => s.simulate_congestion n1 n2 level

def applyOps (s : IPCState) (ops : List IPCOp) : IPCState :=
  ops.foldl applyOp s

/-! ## The bidirectional connection-table invariant (claim C1) -/

/-- Both directional keys of every pair resolve identically (same absence,
or same shared object id). -/
def symmTable (s : IPCState) : Prop :=
  ∀ a b : String, s.connections.find (a, b) = s.connections.find (b, a)

theorem ensure_node_queue_connections (s : IPCState) (n : String) :
    (s.ensure_node_queue n).connections = s.connections := by
  unfold IPCState.ensure_node_queue
  split <;> rfl

theorem updateConnAt_connections (s : IPCState) (key : String × String)
    (f : Connection → Connection) : (s.updateConnAt key f).connections = s.connections := by
  unfold IPCState.updateConnAt
  split
  · rfl
  · split <;> rfl

theorem create_connection_connections (s : IPCState) (n1 n2 i1 i2 : String)
    (bw : Option String) (lat pl : ℚ) :
    (s.create_connection n1 n2 i1 i2 bw lat pl).connections
      = (s.connections.set (n1, n2) s.nextId).set (n2, n1) s.nextId := by
  unfold IPCState.create_connection
  rw [ensure_node_queue_connections, ensure_node_queue_connections]

theorem find_double_set {α : Type} [DecidableEq α] (m : Dict α Nat) (k1 k2 key : α) (i : Nat) :
    ((m.set k1 i).set k2 i).find key
      = if key = k2 then some i else if key = k1 then some i else m.find key := by
  by_cases h2 : key = k2
  · subst h2
    simp [Dict.find_set_self]
  · rw [Dict.find_set_ne _ _ _ _ h2]
    by_cases h1 : key = k1
    · subst h1
      simp [Dict.find_set_self, h2]
    · rw [Dict.find_set_ne _ _ _ _ h1]
      simp [h1, h2]

theorem symmTable_create (s : IPCState) (hs : symmTable s) (n1 n2 i1 i2 : String)
    (bw : Option String) (lat pl : ℚ) :
    symmTable (s.create_connection n1 n2 i1 i2 bw lat pl) := by
  intro a b
  rw [create_connection_connections, find_double_set, find_double_set]
  by_cases hA : (a, b) = (n2, n1)
  · rw [Prod.mk.injEq] at hA
    have hB : (b, a) = (n1, n2) := by rw [Prod.mk.injEq]; exact ⟨hA.2, hA.1⟩
    by_cases hC : (b, a) = (n2, n1) <;>
      simp [Prod.mk.injEq, hA.1, hA.2, hB, hC]
  · by_cases hA2 : (a, b) = (n1, n2)
    · rw [Prod.mk.injEq] at hA2
      have hB2 : (b, a) = (n2, n1) := by rw [Prod.mk.injEq]; exact ⟨hA2.2, hA2.1⟩
      rw [Prod.mk.injEq] at hA hB2
      simp [Prod.mk.injEq, hA2.1, hA2.2, hB2]
    · have hB : ¬ (b, a) = (n2, n1) := by
        intro hh
        rw [Prod.mk.injEq] at hh hA2
        exact hA2 ⟨hh.2, hh.1⟩
      have hB2 : ¬ (b, a) = (n1, n2) := by
        intro hh
        rw [Prod.mk.injEq] at hh hA
        exact hA ⟨hh.2, hh.1⟩
      simp [hA, hA2, hB, hB2]
      exact hs a b

theorem symmTable_applyOp (s : IPCState) (op : IPCOp) (hs : symmTable s) :
    symmTable (applyOp s op) := by
  cases op with
  | create n1 n2 i1 i2 bw lat pl => exact symmTable_create s hs n1 n2 i1 i2 bw lat pl
  | disable n1 n2 =>
    intro a b
    show ((s.updateConnAt _ _).updateConnAt _ _).connections.find _
        = ((s.updateConnAt _ _).updateConnAt _ _).connections.find _
    rw [updateConnAt_connections, updateConnAt_connections]
    exact hs a b
  | enable n1 n2 =>
    intro a b
    show ((s.updateConnAt _ _).updateConnAt _ _).connections.find _
        = ((s.updateConnAt _ _).updateConnAt _ _).connections.find _
    rw [updateConnAt_connections, updateConnAt_connections]
    exact hs a b
  | enableAll => exact hs
  | setProps n1 n2 props =>
    intro a b
    show ((s.updateConnAt _ _).updateConnAt _ _).connections.find _
        = ((s.updateConnAt _ _).updateConnAt _ _).connections.find _
    rw [updateConnAt_connections, updateConnAt_connections]
    exact hs a b
  | congestion n1 n2 level =>
    intro a b
    show ((s.updateConnAt _ _).updateConnAt _ _).connections.find _
        = ((s.updateConnAt _ _).updateConnAt _ _).connections.find _
    rw [updateConnAt_connections, updateConnAt_connections]
    exact hs a b

theorem symmTable_applyOps (ops : List IPCOp) (s : IPCState) (hs : symmTable s) :
    symmTable (applyOps s ops) := by
  induction ops generalizing s with
  | nil => exact hs
  | cons op rest ih => exact ih (applyOp s op) (symmTable_applyOp s op hs)

/-- C1: after any sequence of the registry operations (create, disable,
enable, enable-all, set-properties, simulate-congestion) starting from a
fresh `IPCManager`, the connection table has an entry for `(a, b)` iff it
has one for `(b, a)`, and the two directional entries resolve to the same
`Connection` record, so their `enabled`, `latency` and `packet_loss` fields
are equal at all times. -/
theorem C1_connection_table_bidirectional (ops : List IPCOp) (a b : String) :
    (((applyOps initIPC ops).connections.find (a, b)).isSome
        ↔ ((applyOps initIPC ops).connections.find (b, a)).isSome)
    ∧ (applyOps initIPC ops).connectionAt a b = (applyOps initIPC ops).connectionAt b a := by
  have hs : symmTable (applyOps initIPC ops) :=
    symmTable_applyOps ops initIPC (fun a b => rfl)
  refine ⟨by rw [hs a b], ?_⟩
  unfold IPCState.connectionAt
  rw [hs a b]

/-! ## Congestion shaping (claim C8) -/

theorem applyProps_idem (props : ConnProps) (c : Connection) :
    applyProps props (applyProps props c) = applyProps props c := by
  obtain ⟨l, p, b⟩ := props
  cases l <;> cases p <;> cases b <;> rfl

theorem updateConnAt_self (s : IPCState) (key : String × String) (f : Connection → Connection)
    (i : Nat) (c : Connection) (hk : s.connections.find key = some i)
    (hc : s.connStore.find i = some c) :
    (s.updateConnAt key f).connStore.find i = some (f c) := by
  unfold IPCState.updateConnAt
  simp only [hk, hc]
  exact Dict.find_set_self _ _ _

/-- After updating through some other key, the object at id `i` is either
untouched or rewritten by `f`. -/
theorem updateConnAt_other (s : IPCState) (key : String × String) (f : Connection → Connection)
    (i : Nat) (c : Connection) (hc : s.connStore.find i = some c) :
    (s.updateConnAt key f).connStore.find i = some c
      ∨ (s.updateConnAt key f).connStore.find i = some (f c) := by
  unfold IPCState.updateConnAt
  rcases hk : s.connections.find key with _ | j
  · simp only [hk]
    exact Or.inl hc
  · simp only [hk]
    rcases hd : s.connStore.find j with _ | d
    · simp only [hd]
      exact Or.inl hc
    · simp only [hd]
      by_cases hij : j = i
      · subst hij
        rw [hc] at hd
        cases hd
        exact Or.inr (Dict.find_set_self _ _ _)
      · left
        show (s.connStore.set j (f d)).find i = some c
        rw [Dict.find_set_ne _ _ _ _ (fun hh => hij hh.symm)]
        exact hc

theorem set_connection_properties_at (s : IPCState) (a b : String) (props : ConnProps)
    (c : Connection) (h : s.connectionAt a b = some c) :
    (s.set_connection_properties a b props).connectionAt a b = some (applyProps props c) := by
  unfold IPCState.connectionAt at h
  rcases hk : s.connections.find (a, b) with _ | i
  · rw [hk] at h
    cases h
  · rw [hk] at h
    rw [Option.some_bind] at h
    have h1 : (s.updateConnAt (a, b) (applyProps props)).connStore.find i
        = some (applyProps props c) := updateConnAt_self s (a, b) _ i c hk h
    have hk1 : (s.updateConnAt (a, b) (applyProps props)).connections.find (a, b) = some i := by
      rw [updateConnAt_connections]
      exact hk
    have h2 := updateConnAt_other (s.updateConnAt (a, b) (applyProps props)) (b, a)
      (applyProps props) i (applyProps props c) h1
    unfold IPCState.set_connection_properties IPCState.connectionAt
    rw [updateConnAt_connections, hk1, Option.some_bind]
    rcases h2 with h2 | h2
    · rw [h2]
    · rw [h2, applyProps_idem]

/-- C8: `simulate_congestion(a, b, L)` sets the connection's latency to
`0.001 * (1 + 10 * L)` seconds and its packet loss to `min(L * 0.1, 0.5)`
(so level 1.0 gives latency 11 times the 1 ms base and loss 0.1, as the
witness instance checks), and `clear_congestion()` resets every stored
connection to latency 0.001 and loss 0. -/
theorem C8_congestion_formula (s : IPCState) (a b : String) (L : ℚ) (c : Connection)
    (h : s.connectionAt a b = some c) :
    (∃ c2, (s.simulate_congestion a b L).connectionAt a b = some c2
        ∧ c2.latency = (1 / 1000) * (1 + 10 * L)
        ∧ c2.packet_loss = min (L * (1 / 10)) (1 / 2))
    ∧ (∀ i c3, s.clear_congestion.connStore.find i = some c3 →
        c3.latency = 1 / 1000 ∧ c3.packet_loss = 0) := by
  constructor
  · refine ⟨applyProps (ConnProps.mk (some ((1 / 1000 : ℚ) * (1 + L * 10)))
      (some (min ((0 : ℚ) + L * (1 / 10)) (1 / 2))) none) c, ?_, ?_, ?_⟩
    · exact set_connection_properties_at s a b _ c h
    · show (1 / 1000 : ℚ) * (1 + L * 10) = (1 / 1000) * (1 + 10 * L)
      ring
    · show min ((0 : ℚ) + L * (1 / 10)) (1 / 2) = min (L * (1 / 10)) (1 / 2)
      rw [zero_add]
  · intro i c3 h3
    unfold IPCState.clear_congestion at h3
    simp only [Dict.find_mapVal] at h3
    rcases hfind : s.connStore.find i with _ | c0
    · rw [hfind] at h3
      cases h3
    · rw [hfind] at h3
      simp only [Option.map] at h3
      cases h3
      exact ⟨rfl, rfl⟩

/-- Witness for C8 at a concrete registry and congestion level 1: latency
becomes 11 times the 1 ms base and loss becomes 0.1. -/
theorem C8_congestion_formula_witness :
    ∃ c2, ((initIPC.create_connection "a" "b" "e0" "e1").simulate_congestion "a" "b" 1).connectionAt
        "a" "b" = some c2
      ∧ c2.latency = 11 * (1 / 1000) ∧ c2.packet_loss = 1 / 10 := by
  obtain ⟨⟨c2, h1, h2, h3⟩, h4⟩ := C8_congestion_formula
    (initIPC.create_connection "a" "b" "e0" "e1") "a" "b" 1
    { node1 := "a", node2 := "b", interface1 := "e0", interface2 := "e1" } (by rfl)
  refine ⟨c2, h1, ?_, ?_⟩
  · rw [h2]; norm_num
  · rw [h3]; norm_num

/-! ## Send-path characterization (claim C3) -/

/-- True when an enabled connection is registered for the ordered pair:
Python's `connection and connection.enabled`. -/
def IPCState.enabledConnection (s : IPCState) (a b : String) : Bool :=
  match s.connectionAt a b with
  | some c => c.enabled
  | none => false

/-- C3 (amended): `send_message` returns false iff the manager is stopped or
no enabled connection exists from source to target; `dropped` is incremented
exactly when the manager is running but no enabled connection exists; on
acceptance the envelope is appended to the central dispatch queue; and no
delivery happens synchronously (target inbound queues and the `delivered`
counter are untouched).  Target-queue fullness plays no role in `send`. -/
theorem C3_send_message_characterization (s : IPCState) (source target : String) (m : Msg) :
    ((s.send_message source target m).2 = false
        ↔ (s.running = false ∨ s.enabledConnection source target = false))
    ∧ (s.send_message source target m).1.dropped
        = s.dropped + (if s.running = true ∧ s.enabledConnection source target = false
            then 1 else 0)
    ∧ ((s.send_message source target m).2 = true →
        ∃ i, s.connections.find (source, target) = some i
          ∧ (s.send_message source target m).1.message_queue
              = s.message_queue ++ [⟨source, target, m, i⟩])
    ∧ (s.send_message source target m).1.node_queues = s.node_queues
    ∧ (s.send_message source target m).1.delivered = s.delivered := by
  unfold IPCState.send_message IPCState.enabledConnection IPCState.connectionAt
  by_cases hr : s.running = false
  · simp [hr]
  · have hr2 : s.running = true := by revert hr; cases s.running <;> simp
    rcases hfind : s.connections.find (source, target) with _ | i
    · simp [hr2, hfind]
    · rcases hstore : s.connStore.find i with _ | c
      · simp [hr2, hfind, hstore]
      · by_cases he : c.enabled = false
        · simp [hr2, hfind, hstore, he]
        · have he2 : c.enabled = true := by revert he; cases c.enabled <;> simp
          simp [hr2, hfind, hstore, he2]

def pingMsg : Msg := { msgType := "ping", source := "a" }

/-- A registry with one enabled connection a-b after 100 accepted sends have
been dispatched, filling b's inbound queue to its capacity of 100. -/
def fullQueueState : IPCState :=
  ((List.range 100).foldl
    (fun st _ => (st.send_message "a" "b" pingMsg).1)
    (initIPC.create_connection "a" "b" "eth0" "eth1")).settle (fun _ => false)

set_option maxRecDepth 40000 in
/-- Counterexample to C3 as stated: b's inbound queue is full (100 of 100
slots), yet `send_message("a", "b", ...)` still returns true — a full target
queue does not make `send` fail; the claim's "or the target's inbound queue
is full" condition does not exist on the send path. -/
theorem C3_counterexample :
    ((fullQueueState.node_queues.find "b").getD []).length = nodeQueueCapacity
    ∧ (fullQueueState.send_message "a" "b" pingMsg).2 = true := by
  constructor
  · rfl
  · rfl

/-! ## Statistics conservation (claim C4) -/

def runSends : IPCState → List (String × String × Msg) → IPCState × Nat
  | s, [] => (s, 0)
  | s, (a, b, m) :: rest =>
    let r := s.send_message a b m
    let q := runSends r.1 rest
    (q.1, q.2 + (if r.2 = false then 1 else 0))

theorem send_message_cases (s : IPCState) (a b : String) (m : Msg)
    (h : s.running = true) :
    ((s.send_message a b m).2 = true
      ∧ (s.send_message a b m).1.dropped = s.dropped
      ∧ (s.send_message a b m).1.delivered = s.delivered
      ∧ (s.send_message a b m).1.sent = s.sent + 1
      ∧ (s.send_message a b m).1.message_queue.length = s.message_queue.length + 1
      ∧ (s.send_message a b m).1.running = true)
    ∨ ((s.send_message a b m).2 = false
      ∧ (s.send_message a b m).1.dropped = s.dropped + 1
      ∧ (s.send_message a b m).1.delivered = s.delivered
      ∧ (s.send_message a b m).1.sent = s.sent
      ∧ (s.send_message a b m).1.message_queue.length = s.message_queue.length
      ∧ (s.send_message a b m).1.running = true) := by
  unfold IPCState.send_message
  rcases hfind : s.connections.find (a, b) with _ | i
  · right
    simp [h, hfind]
  · rcases hstore : s.connStore.find i with _ | c
    · right
      simp [h, hfind, hstore]
    · by_cases he : c.enabled = false
      · right
        simp [h, hfind, hstore, he]
      · left
        have he2 : c.enabled = true := by revert he; cases c.enabled <;> simp
        simp [h, hfind, hstore, he2]

theorem runSends_cons_fst (s : IPCState) (a b : String) (m : Msg)
    (rest : List (String × String × Msg)) :
    (runSends s ((a, b, m) :: rest)).1 = (runSends (s.send_message a b m).1 rest).1 := rfl

theorem runSends_cons_snd (s : IPCState) (a b : String) (m : Msg)
    (rest : List (String × String × Msg)) :
    (runSends s ((a, b, m) :: rest)).2
      = (runSends (s.send_message a b m).1 rest).2
        + (if (s.send_message a b m).2 = false then 1 else 0) := rfl

theorem runSends_delta (reqs : List (String × String × Msg)) (s : IPCState)
    (h : s.running = true) :
    (runSends s reqs).1.running = true
    ∧ (runSends s reqs).1.dropped + (runSends s reqs).1.delivered
        + (runSends s reqs).1.message_queue.length + s.sent
      = s.dropped + s.delivered + s.message_queue.length
        + (runSends s reqs).1.sent + (runSends s reqs).2 := by
  induction reqs generalizing s with
  | nil =>
    refine ⟨h, ?_⟩
    show s.dropped + s.delivered + s.message_queue.length + s.sent
      = s.dropped + s.delivered + s.message_queue.length + s.sent + 0
    omega
  | cons req rest ih =>
    obtain ⟨a, b, m⟩ := req
    rcases send_message_cases s a b m h with hc | hc
    · obtain ⟨hres, hD, hDel, hSent, hQ, hRun⟩ := hc
      obtain ⟨ih1, ih2⟩ := ih (s.send_message a b m).1 hRun
      rw [hD, hDel, hSent, hQ] at ih2
      refine ⟨by rw [runSends_cons_fst]; exact ih1, ?_⟩
      rw [runSends_cons_fst, runSends_cons_snd, hres]
      rw [if_neg (by simp)]
      omega
    · obtain ⟨hres, hD, hDel, hSent, hQ, hRun⟩ := hc
      obtain ⟨ih1, ih2⟩ := ih (s.send_message a b m).1 hRun
      rw [hD, hDel, hSent, hQ] at ih2
      refine ⟨by rw [runSends_cons_fst]; exact ih1, ?_⟩
      rw [runSends_cons_fst, runSends_cons_snd, hres]
      rw [if_pos rfl]
      omega

theorem process_message_delta (s : IPCState) (im : IPCMessage) (b : Bool) :
    (s.process_message im b).dropped + (s.process_message im b).delivered
        = s.dropped + s.delivered + 1
    ∧ (s.process_message im b).sent = s.sent := by
  simp only [IPCState.process_message]
  split
  · refine ⟨?_, by trivial⟩
    show s.dropped + 1 + s.delivered = s.dropped + s.delivered + 1
    omega
  · simp only [IPCState.deliver_message]
    rcases hq : s.node_queues.find im.target with _ | q
    · simp only [hq]
      refine ⟨?_, by trivial⟩
      show s.dropped + 1 + s.delivered = s.dropped + s.delivered + 1
      omega
    · simp only [hq]
      split
      · refine ⟨?_, by trivial⟩
        show s.dropped + 1 + s.delivered = s.dropped + s.delivered + 1
        omega
      · refine ⟨?_, by trivial⟩
        show s.dropped + (s.delivered + 1) = s.dropped + s.delivered + 1
        omega

theorem processMsgs_delta (oracle : Nat → Bool) (l : List IPCMessage) (s : IPCState) (n : Nat) :
    (processMsgs oracle s l n).dropped + (processMsgs oracle s l n).delivered
        = s.dropped + s.delivered + l.length
    ∧ (processMsgs oracle s l n).sent = s.sent := by
  induction l generalizing s n with
  | nil => exact ⟨by simp [processMsgs], rfl⟩
  | cons im rest ih =>
    obtain ⟨h1, h2⟩ := process_message_delta s im (oracle n)
    obtain ⟨ih1, ih2⟩ := ih (s.process_message im (oracle n)) (n + 1)
    refine ⟨?_, ?_⟩
    · simp only [processMsgs, List.length_cons]
      omega
    · simp only [processMsgs]
      rw [ih2, h2]

theorem settle_delta (s : IPCState) (oracle : Nat → Bool) :
    (s.settle oracle).dropped + (s.settle oracle).delivered
        = s.dropped + s.delivered + s.message_queue.length
    ∧ (s.settle oracle).sent = s.sent := by
  unfold IPCState.settle
  obtain ⟨h1, h2⟩ := processMsgs_delta oracle s.message_queue { s with message_queue := [] } 0
  exact ⟨h1, h2⟩

/-- The send/deliver statistics and dispatch-queue/running fields bundled
together, used to show the six registry operations never touch them. -/
def stats (s : IPCState) : Nat × Nat × Nat × List IPCMessage × Bool :=
  (s.dropped, s.delivered, s.sent, s.message_queue, s.running)

theorem updateConnAt_stats (s : IPCState) (key : String × String)
    (f : Connection → Connection) : stats (s.updateConnAt key f) = stats s := by
  unfold IPCState.updateConnAt
  split
  · rfl
  · split <;> rfl

theorem ensure_node_queue_stats (s : IPCState) (n : String) :
    stats (s.ensure_node_queue n) = stats s := by
  unfold IPCState.ensure_node_queue
  split <;> rfl

theorem applyOp_stats (s : IPCState) (op : IPCOp) : stats (applyOp s op) = stats s := by
  cases op with
  | create n1 n2 i1 i2 bw lat pl =>
    show stats (((_ : IPCState).ensure_node_queue n1).ensure_node_queue n2) = stats s
    rw [ensure_node_queue_stats, ensure_node_queue_stats]
    rfl
  | disable n1 n2 =>
    show stats ((s.updateConnAt _ _).updateConnAt _ _) = stats s
    rw [updateConnAt_stats, updateConnAt_stats]
  | enable n1 n2 =>
    show stats ((s.updateConnAt _ _).updateConnAt _ _) = stats s
    rw [updateConnAt_stats, updateConnAt_stats]
  | enableAll => rfl
  | setProps n1 n2 props =>
    show stats ((s.updateConnAt _ _).updateConnAt _ _) = stats s
    rw [updateConnAt_stats, updateConnAt_stats]
  | congestion n1 n2 level =>
    show stats ((s.updateConnAt _ _).updateConnAt _ _) = stats s
    rw [updateConnAt_stats, updateConnAt_stats]

theorem applyOps_stats_general (ops : List IPCOp) (s : IPCState) :
    stats (applyOps s ops) = stats s := by
  induction ops generalizing s with
  | nil => rfl
  | cons op rest ih =>
    show stats (applyOps (applyOp s op) rest) = stats s
    rw [ih (applyOp s op), applyOp_stats]

theorem applyOps_stats (ops : List IPCOp) :
    (applyOps initIPC ops).dropped = 0
    ∧ (applyOps initIPC ops).delivered = 0
    ∧ (applyOps initIPC ops).sent = 0
    ∧ (applyOps initIPC ops).message_queue = []
    ∧ (applyOps initIPC ops).running = true := by
  have h := applyOps_stats_general ops initIPC
  exact ⟨congrArg (fun t => t.1) h, congrArg (fun t => t.2.1) h,
    congrArg (fun t => t.2.2.1) h, congrArg (fun t => t.2.2.2.1) h,
    congrArg (fun t => t.2.2.2.2) h⟩

/-- C4 (amended): after any registry setup, any sequence of `send_message`
calls and a full drain of the dispatch queue, the statistics satisfy
`dropped + delivered = sent + r` where `r` is the number of rejected send
calls; the claimed identity `dropped + delivered = sent` holds exactly when
every send was accepted. -/
theorem C4_statistics_conservation (ops : List IPCOp)
    (reqs : List (String × String × Msg)) (oracle : Nat → Bool) :
    ((runSends (applyOps initIPC ops) reqs).1.settle oracle).dropped
      + ((runSends (applyOps initIPC ops) reqs).1.settle oracle).delivered
    = ((runSends (applyOps initIPC ops) reqs).1.settle oracle).sent
      + (runSends (applyOps initIPC ops) reqs).2 := by
  obtain ⟨h1, h2, h3, h4, h5⟩ := applyOps_stats ops
  obtain ⟨hr, hd⟩ := runSends_delta reqs (applyOps initIPC ops) h5
  obtain ⟨hs1, hs2⟩ := settle_delta (runSends (applyOps initIPC ops) reqs).1 oracle
  rw [h1, h2, h3, h4] at hd
  simp only [List.length_nil] at hd
  omega

/-- Counterexample to C4 as stated: a single send over a missing connection
is rejected (`dropped` becomes 1) without incrementing `sent`, so after
settling `dropped + delivered = 1 ≠ 0 = sent`. -/
theorem C4_counterexample :
    ((runSends initIPC [("a", "b", pingMsg)]).1.settle (fun _ => false)).dropped = 1
    ∧ ((runSends initIPC [("a", "b", pingMsg)]).1.settle (fun _ => false)).delivered = 0
    ∧ ¬ (((runSends initIPC [("a", "b", pingMsg)]).1.settle (fun _ => false)).dropped
          + ((runSends initIPC [("a", "b", pingMsg)]).1.settle (fun _ => false)).delivered
        = ((runSends initIPC [("a", "b", pingMsg)]).1.settle (fun _ => false)).sent) := by
  refine ⟨rfl, rfl, ?_⟩
  decide

/-- Witness instantiating the send characterization at the fresh registry:
with no connection registered, `send_message` returns false, `dropped`
becomes 1 and nothing is queued or delivered. -/
theorem C3_send_message_characterization_witness :
    ((initIPC.send_message "a" "b" pingMsg).2 = false
        ↔ (initIPC.running = false ∨ initIPC.enabledConnection "a" "b" = false))
    ∧ (initIPC.send_message "a" "b" pingMsg).1.dropped
        = initIPC.dropped + (if initIPC.running = true
            ∧ initIPC.enabledConnection "a" "b" = false then 1 else 0)
    ∧ ((initIPC.send_message "a" "b" pingMsg).2 = true →
        ∃ i, initIPC.connections.find ("a", "b") = some i
          ∧ (initIPC.send_message "a" "b" pingMsg).1.message_queue
              = initIPC.message_queue ++ [⟨"a", "b", pingMsg, i⟩])
    ∧ (initIPC.send_message "a" "b" pingMsg).1.node_queues = initIPC.node_queues
    ∧ (initIPC.send_message "a" "b" pingMsg).1.delivered = initIPC.delivered :=
  C3_send_message_characterization initIPC "a" "b" pingMsg

/-! ## Device actors (`src/Try1/src/simulation/network_node.py`) -/

/-- `Interface` dataclass (config_parser.py lines 15-25); the fields the
simulation core reads. -/
structure Interface where
  name : String
  ip_address : Option String := none
  subnet_mask : Option String := none
  bandwidth : Option String := none
  enabled : Bool := true
deriving DecidableEq, Repr, Inhabited

/-- `RoutingProtocol` dataclass (config_parser.py lines 28-35). -/
structure RoutingProtocol where
  protocol : String
  process_id : Option String := none
  networks : List String := []
  neighbors : List String := []
  area : Option String := none
deriving DecidableEq, Repr, Inhabited

/-- `NetworkDevice` dataclass (config_parser.py lines 38-47); the fields the
simulation core reads. -/
structure NetworkDevice where
  name : String
  device_type : String
  interfaces : List Interface := []
  routing_protocols : List RoutingProtocol := []
deriving DecidableEq, Repr, Inhabited

/-- Python truthiness of an optional string (`if x:`): `None` and the empty
string are falsy. -/
def pyTruthy : Option String → Bool
  | none => false
  | some s => decide (s ≠ "")

/-- Python `x or "0"`. -/
def orElseStr (x : Option String) (d : String) : String :=
  match x with
  | none => d
  | some s => if s = "" then d else s

/-- Stand-in for CPython's seed-dependent `hash`; deterministic so that the
model is executable.  No claim depends on the concrete value, only on the
shape of the strings built from it. -/
def strHash (s : String) : Nat :=
  s.foldl (fun a c => a * 31 + c.toNat) 7

/-- Mutable state of a `NetworkNode` (network_node.py lines 29-56).  The
`NodeStatistics` counters the modelled operations touch are inlined;
`uptime`/`last_activity` are wall-clock values read only by the periodic
loop and are not modelled.  `started` records that `start()` has launched
the node's processing thread. -/
structure NodeState where
  device : NetworkDevice
  operational : Bool := false
  powered_on : Bool := false
  paused : Bool := false
  started : Bool := false
  arp_table : Dict String String := []
  routing_table : Dict String String := []
  interface_states : Dict String Bool := []
  packets_sent : Nat := 0
  packets_received : Nat := 0
  hello_packets_sent : Nat := 0
  arp_requests_sent : Nat := 0
  routing_updates : Nat := 0
deriving DecidableEq, Repr, Inhabited

/-- `NetworkNode.__init__` (network_node.py lines 29-56): interface states
are seeded from each interface's configured `enabled` flag. -/
def NodeState.init (device : NetworkDevice) : NodeState :=
  { device := device,
    interface_states :=
      device.interfaces.foldl (fun st i => st.set i.name i.enabled) [] }

/-- `power_on` (network_node.py lines 148-159): marks enabled interfaces up
and, after the boot delay, becomes operational. -/
def NodeState.power_on (ns : NodeState) : NodeState :=
  let ns1 := { ns with powered_on := true }
  let states := ns.device.interfaces.foldl
    (fun st i => if i.enabled then st.set i.name true else st) ns1.interface_states
  { ns1 with interface_states := states, operational := true }

/-- `_get_gateway_ip` (network_node.py lines 358-365): replace the last
dot-separated component of the interface IP with "1". -/
def setLastPart : List String → String → List String
  | [], _ => []
  | [_], v => [v]
  | x :: y :: rest, v => x :: setLastPart (y :: rest) v

def get_gateway_ip (i : Interface) : String :=
  if pyTruthy i.ip_address ∧ pyTruthy i.subnet_mask then
    match i.ip_address with
    | some ip => String.intercalate "." (setLastPart (ip.splitOn ".") "1")
    | none => "0.0.0.0"
  else "0.0.0.0"

/-- `_get_router_id` (network_node.py lines 367-373): first truthy interface
IP, else a deterministic fallback derived from the device name (the source
uses the seed-dependent `hash`; modelled by `strHash`). -/
def get_router_id (d : NetworkDevice) : String :=
  match d.interfaces.find? (fun i => pyTruthy i.ip_address) with
  | some i => i.ip_address.getD ""
  | none => "192.168.1." ++ toString (strHash d.name % 254 + 1)

/-- `_get_interface_mac` (network_node.py lines 375-380), with `strHash`
standing in for the seed-dependent `hash`. -/
def get_interface_mac (d : NetworkDevice) (interface_name : String) : String :=
  let device_hash := strHash (d.name ++ ":" ++ interface_name)
  let mac_suffix := (Nat.toDigits 16 (device_hash % 0xFFFFFF)).asString
  "00:50:56:" ++ mac_suffix

/-- `_broadcast_message` (network_node.py lines 332-335): sends through the
registry to every enabled neighbor and counts one packet sent. -/
def NodeState.broadcast_message (ns : NodeState) (message : Msg) (ipc : IPCState) :
    NodeState × IPCState :=
  ({ ns with packets_sent := ns.packets_sent + 1 },
   ipc.broadcast_from_node ns.device.name message)

/-- `_send_message_to` (network_node.py lines 337-340). -/
def NodeState.send_message_to (ns : NodeState) (target : String) (message : Msg)
    (ipc : IPCState) : NodeState × IPCState :=
  ({ ns with packets_sent := ns.packets_sent + 1 },
   (ipc.send_message ns.device.name target message).1)

/-- Loop body of `perform_arp_discovery` (network_node.py lines 166-177):
an interface with a truthy IP whose state is up broadcasts an ARP request
for the conventional gateway and counts it. -/
def arpStep (ns : NodeState) (acc : NodeState × IPCState) (i : Interface) :
    NodeState × IPCState :=
  if pyTruthy i.ip_address
      ∧ (acc.1.interface_states.find i.name).getD false = true then
    let arp_message : Msg :=
      { msgType := "arp_request", source := ns.device.name,
        source_ip := i.ip_address,
        target_ip := some (get_gateway_ip i), iface := some i.name }
    let r := acc.1.broadcast_message arp_message acc.2
    ({ r.1 with arp_requests_sent := r.1.arp_requests_sent + 1 }, r.2)
  else acc

/-- `perform_arp_discovery` (network_node.py lines 161-177). -/
def NodeState.perform_arp_discovery (ns : NodeState) (ipc : IPCState) :
    NodeState × IPCState :=
  if ns.operational = false then (ns, ipc)
  else ns.device.interfaces.foldl (arpStep ns) (ns, ipc)

/-- `send_ospf_hello` (network_node.py lines 179-196): routers with OSPF
processes broadcast one hello per process. -/
def NodeState.send_ospf_hello (ns : NodeState) (ipc : IPCState) : NodeState × IPCState :=
  if ns.operational = false ∨ ns.device.device_type ≠ "router" then (ns, ipc)
  else
    (ns.device.routing_protocols.filter (fun rp => rp.protocol == "ospf")).foldl
      (fun acc rp =>
        let hello_message : Msg :=
          { msgType := "ospf_hello", source := ns.device.name,
            process_id := rp.process_id,
            area := some (orElseStr rp.area "0"),
            router_id := some (get_router_id ns.device) }
        let r := acc.1.broadcast_message hello_message acc.2
        ({ r.1 with hello_packets_sent := r.1.hello_packets_sent + 1 }, r.2))
      (ns, ipc)

/-- `update_routing_table` (network_node.py lines 202-213): routers install
every configured network as directly connected. -/
def NodeState.update_routing_table (ns : NodeState) : NodeState :=
  if ns.operational = false ∨ ns.device.device_type ≠ "router" then ns
  else
    let rt := ns.device.routing_protocols.foldl
      (fun rt rp => rp.networks.foldl
        (fun rt2 network => Dict.set rt2 network "directly_connected") rt)
      ns.routing_table
    { ns with routing_table := rt, routing_updates := ns.routing_updates + 1 }

/-- The LSA payload built by `_trigger_ospf_reconvergence` (network_node.py
lines 342-351); `t` is `int(time.time())` at the moment of the call. -/
def lsaMessage (ns : NodeState) (t : Nat) : Msg :=
  { msgType := "ospf_lsa", source := ns.device.name,
    router_id := some (get_router_id ns.device), sequence := some t }

/-- `_trigger_ospf_reconvergence` (network_node.py lines 342-351). -/
def NodeState.trigger_ospf_reconvergence (ns : NodeState) (t : Nat) (ipc : IPCState) :
    NodeState × IPCState :=
  ns.broadcast_message (lsaMessage ns t) ipc

/-- `handle_link_failure` (network_node.py lines 215-228): collect every
network routed through the failed neighbor, delete those entries, then (for
routers) broadcast an LSA carrying `int(time.time())` as sequence number. -/
def NodeState.handle_link_failure (ns : NodeState) (neighbor : String) (t : Nat)
    (ipc : IPCState) : NodeState × IPCState :=
  let routes_to_remove :=
    ns.routing_table.keysWhere (fun _ next_hop => next_hop == neighbor)
  let rt := routes_to_remove.foldl Dict.erase ns.routing_table
  let ns1 := { ns with routing_table := rt }
  if ns.device.device_type = "router" then ns1.trigger_ospf_reconvergence t ipc
  else (ns1, ipc)

/-- `reconverge_routing` (network_node.py lines 230-238). -/
def NodeState.reconverge_routing (ns : NodeState) (ipc : IPCState) :
    NodeState × IPCState :=
  if ns.device.device_type ≠ "router" then (ns, ipc)
  else
    let r := ns.send_ospf_hello ipc
    (r.1.update_routing_table, r.2)

/-- `_flush_interface_routes` (network_node.py lines 353-356).  The body of
the source function is `pass` (with the comment "Simplified - in reality
would check interface associations"): it removes nothing. -/
def NodeState.flush_interface_routes (ns : NodeState) (interface_name : String) :
    NodeState :=
  ns

/-- `simulate_interface_change` (network_node.py lines 240-253): toggle the
first interface; coming up runs ARP discovery, going down calls the flush
stub. -/
def NodeState.simulate_interface_change (ns : NodeState) (ipc : IPCState) :
    NodeState × IPCState :=
  match ns.device.interfaces with
  | [] => (ns, ipc)
  | i :: _ =>
    let current_state := (ns.interface_states.find i.name).getD true
    let ns1 := { ns with interface_states := ns.interface_states.set i.name (!current_state) }
    if current_state = false then ns1.perform_arp_discovery ipc
    else (ns1.flush_interface_routes i.name, ipc)

/-- `simulate_device_failure` (network_node.py lines 255-266). -/
def NodeState.simulate_device_failure (ns : NodeState) : NodeState :=
  { ns with
    operational := false
    powered_on := false
    arp_table := []
    routing_table := []
    interface_states := ns.interface_states.mapVal (fun _ => false) }

/-- `simulate_interface_down` (network_node.py lines 268-272). -/
def NodeState.simulate_interface_down (ns : NodeState) (interface_name : String) :
    NodeState :=
  if (ns.interface_states.find interface_name).isSome then
    ({ ns with interface_states := ns.interface_states.set interface_name false
     }).flush_interface_routes interface_name
  else ns

/-- `stop` (network_node.py lines 68-74). -/
def NodeState.stop (ns : NodeState) : NodeState :=
  { ns with started := false, operational := false, powered_on := false }

/-! ## Scenario orchestrator (`src/Try1/src/simulation/simulator.py`) -/

/-- `NetworkLink` dataclass (topology_builder.py lines 15-24); the fields
the simulator reads. -/
structure NetworkLink where
  source_device : String
  target_device : String
  source_interface : String
  target_interface : String
  bandwidth : Option String := none
deriving DecidableEq, Repr, Inhabited

/-- One entry of the simulator's event log (`_log_event`, simulator.py
lines 300-309).  The dict key `type` is named `etype`; the wall-clock
`timestamp` is modelled by the simulator's monotone event counter. -/
structure SimEvent where
  timestamp : Nat
  etype : String
  message : String
  device : Option String := none
deriving DecidableEq, Repr, Inhabited

/-- State of a `NetworkSimulator` (simulator.py lines 30-41) plus the
monotone counter standing in for the wall clock. -/
structure SimState where
  nodes : Dict String NodeState
  ipc : IPCState
  events : List SimEvent
  simulation_running : Bool
  clock : Nat
deriving DecidableEq, Repr, Inhabited

/-- `_log_event` (simulator.py lines 300-309): appends one event and
advances the clock. -/
def SimState.log_event (s : SimState) (etype message : String)
    (device : Option String := none) : SimState :=
  { s with
    events := s.events ++ [{ timestamp := s.clock, etype := etype,
                             message := message, device := device }]
    clock := s.clock + 1 }

/-- `_initialize_simulation` (simulator.py lines 88-119): create the IPC
manager and one node per device, register a connection for every link whose
two endpoints are known nodes, start every node, then log the start
event. -/
def init_simulation (devices : List NetworkDevice) (links : List NetworkLink) : SimState :=
  let nodes : Dict String NodeState :=
    devices.foldl (fun m d => m.set d.name (NodeState.init d)) []
  let ipc1 := links.foldl
    (fun ip l =>
      if (nodes.find l.source_device).isSome ∧ (nodes.find l.target_device).isSome then
        ip.create_connection l.source_device l.target_device
          l.source_interface l.target_interface
      else ip)
    initIPC
  let nodes1 := nodes.mapVal (fun nd => { nd with started := true })
  let s : SimState :=
    { nodes := nodes1, ipc := ipc1, events := [], simulation_running := true, clock := 0 }
  ({ s with simulation_running := true }).log_event "simulation_started"
    "Simulation environment initialized"

/-- Run `f` on the node registered under `nm`, updating node map and
registry together; no-op when the node is missing. -/
def SimState.withNode (s : SimState) (nm : String)
    (f : NodeState → IPCState → NodeState × IPCState) : SimState :=
  match s.nodes.find nm with
  | some nd =>
    let r := f nd s.ipc
    { s with nodes := s.nodes.set nm r.1, ipc := r.2 }
  | none => s

/-- `_simulate_device_startup` (simulator.py lines 164-175): power devices
on grouped by type in the fixed order router, switch, firewall (other types,
e.g. pc, are never powered on here), logging one `device_startup` event per
device. -/
def SimState.simulate_device_startup (s : SimState) : SimState :=
  ["router", "switch", "firewall"].foldl
    (fun st device_type =>
      (st.nodes.keysWhere (fun _ nd => nd.device.device_type == device_type)).foldl
        (fun st2 nm =>
          match st2.nodes.find nm with
          | some nd =>
            let st3 := st2.log_event "device_startup"
              ("Device " ++ nd.device.name ++ " starting up") (some nd.device.name)
            { st3 with nodes := st3.nodes.set nm nd.power_on }
          | none => st2)
        st)
    s

/-- `_simulate_arp_discovery` (simulator.py lines 177-182): every node logs
an `arp_discovery` event and runs its discovery. -/
def SimState.simulate_arp_discovery (s : SimState) : SimState :=
  s.nodes.keys.foldl
    (fun st nm =>
      match st.nodes.find nm with
      | some nd =>
        let st1 := st.log_event "arp_discovery"
          ("Device " ++ nd.device.name ++ " performing ARP discovery")
          (some nd.device.name)
        let r := nd.perform_arp_discovery st1.ipc
        { st1 with nodes := st1.nodes.set nm r.1, ipc := r.2 }
      | none => st)
    s

/-- `_simulate_routing_convergence` (simulator.py lines 184-200): routers
with an OSPF process send hello, then every router updates its routing
table. -/
def SimState.simulate_routing_convergence (s : SimState) : SimState :=
  let router_nodes := s.nodes.keysWhere (fun _ nd => nd.device.device_type == "router")
  let s1 := router_nodes.foldl
    (fun st nm =>
      match st.nodes.find nm with
      | some nd =>
        if nd.device.routing_protocols.any (fun rp => rp.protocol == "ospf") then
          let st1 := st.log_event "ospf_hello"
            ("Router " ++ nd.device.name ++ " sending OSPF hello packets")
            (some nd.device.name)
          let r := nd.send_ospf_hello st1.ipc
          { st1 with nodes := st1.nodes.set nm r.1, ipc := r.2 }
        else st
      | none => st)
    s
  router_nodes.foldl
    (fun st nm =>
      match st.nodes.find nm with
      | some nd =>
        let st1 := st.log_event "routing_table_update"
          ("Router " ++ nd.device.name ++ " updating routing table")
          (some nd.device.name)
        { st1 with nodes := st1.nodes.set nm nd.update_routing_table }
      | none => st)
    s1

/-- `_simulate_network_stabilization` (simulator.py lines 202-210): log the
stable event and mark every node operational. -/
def SimState.simulate_network_stabilization (s : SimState) : SimState :=
  let s1 := s.log_event "network_stable" "Network reached stable state"
  { s1 with nodes := s1.nodes.mapVal (fun nd => { nd with operational := true }) }

/-- `_run_day1_scenario` (simulator.py lines 121-139). -/
def run_day1_scenario (s : SimState) : SimState :=
  let s1 := (s.log_event "phase_start" "Phase 1: Device power-on sequence").simulate_device_startup
  let s2 := (s1.log_event "phase_start" "Phase 2: ARP and neighbor discovery").simulate_arp_discovery
  let s3 := (s2.log_event "phase_start" "Phase 3: Routing protocol convergence").simulate_routing_convergence
  (s3.log_event "phase_start" "Phase 4: Network stabilization").simulate_network_stabilization

/-- `_simulate_link_failures` (simulator.py lines 212-233).  The call
`random.sample(available_nodes, 2)` is modelled by the index oracle
`(r1, r2)` choosing two distinct positions. -/
def SimState.simulate_link_failures (s : SimState) (r1 r2 : Nat) : SimState :=
  let available_nodes := s.nodes.keys
  if 2 ≤ available_nodes.length then
    let i := r1 % available_nodes.length
    let j0 := r2 % (available_nodes.length - 1)
    let j := if i ≤ j0 then j0 + 1 else j0
    let node1 := available_nodes.getD i ""
    let node2 := available_nodes.getD j ""
    let s1 := s.log_event "link_failure"
      ("Link failure between " ++ node1 ++ " and " ++ node2)
    let s2 := { s1 with ipc := s1.ipc.disable_connection node1 node2 }
    let s3 := s2.withNode node1 (fun nd ip => nd.handle_link_failure node2 s2.clock ip)
    s3.withNode node2 (fun nd ip => nd.handle_link_failure node1 s3.clock ip)
  else s

/-- `_simulate_network_recovery` (simulator.py lines 235-248). -/
def SimState.simulate_network_recovery (s : SimState) : SimState :=
  let s1 := s.log_event "recovery_start" "Starting network recovery"
  let s2 := { s1 with ipc := s1.ipc.enable_all_connections }
  let s3 := s2.nodes.keys.foldl
    (fun st nm =>
      match st.nodes.find nm with
      | some nd =>
        if nd.device.device_type == "router" then
          st.withNode nm (fun nd2 ip => nd2.reconverge_routing ip)
        else st
      | none => st)
    s2
  s3.log_event "recovery_complete" "Network recovery completed"

/-- `_simulate_configuration_changes` (simulator.py lines 250-264);
`random.choice(routers)` is modelled by the index oracle `r3`. -/
def SimState.simulate_configuration_changes (s : SimState) (r3 : Nat) : SimState :=
  let routers := s.nodes.keysWhere (fun _ nd => nd.device.device_type == "router")
  if 0 < routers.length then
    let nm := routers.getD (r3 % routers.length) ""
    match s.nodes.find nm with
    | some nd =>
      let s1 := s.log_event "config_change"
        ("Configuration change on " ++ nd.device.name) (some nd.device.name)
      let r := nd.simulate_interface_change s1.ipc
      { s1 with nodes := s1.nodes.set nm r.1, ipc := r.2 }
    | none => s
  else s

/-- `_run_day2_scenario` (simulator.py lines 141-162). -/
def run_day2_scenario (s : SimState) (r1 r2 r3 : Nat) : SimState :=
  let s0 := s.simulate_network_stabilization
  let s1 := s0.log_event "phase_start" "Phase 1: Normal network operation"
  let s2 := (s1.log_event "phase_start" "Phase 2: Link failure simulation").simulate_link_failures r1 r2
  let s3 := (s2.log_event "phase_start" "Phase 3: Network recovery").simulate_network_recovery
  (s3.log_event "phase_start" "Phase 4: Configuration change impact").simulate_configuration_changes r3

/-- Per-device entry of `_collect_node_states` (simulator.py lines
286-298). -/
structure NodeSnapshot where
  operational : Bool
  interfaces_up : Dict String Bool
  routing_table_size : Nat
  arp_table_size : Nat
deriving DecidableEq, Repr, Inhabited

def SimState.collect_node_states (s : SimState) : Dict String NodeSnapshot :=
  List.map (fun (p : String × NodeState) =>
    (p.1, { operational := p.2.operational,
            interfaces_up := p.2.interface_states,
            routing_table_size := p.2.routing_table.keys.length,
            arp_table_size := p.2.arp_table.keys.length : NodeSnapshot }))
    s.nodes

/-- `_collect_statistics` (simulator.py lines 266-284); the per-node uptime
float inside `node_statistics` is wall-clock and not modelled. -/
structure SimStatistics where
  total_events : Nat
  nodes_simulated : Nat
  event_types : Dict String Nat
deriving DecidableEq, Repr, Inhabited

def SimState.collect_statistics (s : SimState) : SimStatistics :=
  { total_events := s.events.length,
    nodes_simulated := s.nodes.keys.length,
    event_types := s.events.foldl
      (fun d e => d.set e.etype ((d.find e.etype).getD 0 + 1)) [] }

/-- `SimulationResult` dataclass (simulator.py lines 17-24); the wall-clock
`duration` is modelled by the final clock value. -/
structure SimulationResult where
  scenario : String
  duration : Nat
  events : List SimEvent
  statistics : SimStatistics
  node_states : Dict String NodeSnapshot
deriving DecidableEq, Repr, Inhabited

def SimState.collect_result (s : SimState) (scenario : String) : SimulationResult :=
  { scenario := scenario, duration := s.clock, events := s.events,
    statistics := s.collect_statistics, node_states := s.collect_node_states }

/-- `IPCManager.cleanup` (ipc_manager.py lines 70-83): stop, clear the
connection table and node queues, drain the central queue.  The statistics
counters are retained. -/
def IPCState.cleanup (s : IPCState) : IPCState :=
  { s with
    running := false
    connections := []
    connStore := []
    node_queues := []
    message_queue := [] }

/-- `_cleanup_simulation` (simulator.py lines 311-326): stop every node,
clean the IPC manager, clear the node map and the event log. -/
def SimState.cleanup_simulation (s : SimState) : SimState :=
  { s with
    simulation_running := false
    nodes := []
    ipc := s.ipc.cleanup
    events := [] }

/-- `run_simulation` (simulator.py lines 43-86).  Initialization runs
before the scenario dispatch; an unknown scenario raises `ValueError`
(modelled as `Except.error`) after it.  The `finally` block always runs
cleanup.  Returns the caller-visible outcome together with the simulator's
internal state after the call.  `r1 r2 r3` are the day-2 randomness
oracles. -/
def run_simulation (devices : List NetworkDevice) (links : List NetworkLink)
    (scenario : String) (r1 r2 r3 : Nat) :
    Except String SimulationResult × SimState :=
  let s0 := init_simulation devices links
  if scenario = "day1" then
    let s1 := run_day1_scenario s0
    (Except.ok (s1.collect_result scenario), s1.cleanup_simulation)
  else if scenario = "day2" then
    let s1 := run_day2_scenario s0 r1 r2 r3
    (Except.ok (s1.collect_result scenario), s1.cleanup_simulation)
  else
    (Except.error ("Unknown scenario: " ++ scenario), s0.cleanup_simulation)

/-- `inject_fault` (simulator.py lines 342-358): always logs one
`fault_injection` event first, then dispatches on the fault type when the
target is a registered node. -/
def SimState.inject_fault (s : SimState) (fault_type target : String)
    (neighbor : Option String := none) (iface : Option String := none) : SimState :=
  let s1 := s.log_event "fault_injection"
    ("Injecting " ++ fault_type ++ " fault on " ++ target)
  if fault_type = "link_failure" ∧ (s1.nodes.find target).isSome then
    match neighbor with
    | some nb =>
      let s2 := { s1 with ipc := s1.ipc.disable_connection target nb }
      s2.withNode target (fun nd ip => nd.handle_link_failure nb s2.clock ip)
    | none => s1
  else if fault_type = "device_failure" ∧ (s1.nodes.find target).isSome then
    s1.withNode target (fun nd ip => (nd.simulate_device_failure, ip))
  else if fault_type = "interface_down" ∧ (s1.nodes.find target).isSome then
    match iface with
    | some iname => s1.withNode target (fun nd ip => (nd.simulate_interface_down iname, ip))
    | none => s1
  else s1

/-! ## Interface-down route flushing (claim C5) -/

theorem foldl_preserve {α β γ : Type} (f : β → α → β) (proj : β → γ)
    (hstep : ∀ b a, proj (f b a) = proj b) :
    ∀ (l : List α) (b : β), proj (l.foldl f b) = proj b := by
  intro l
  induction l with
  | nil => intro b; rfl
  | cons a rest ih =>
    intro b
    rw [List.foldl_cons, ih, hstep]

theorem arpStep_routing (ns : NodeState) (acc : NodeState × IPCState) (i : Interface) :
    (arpStep ns acc i).1.routing_table = acc.1.routing_table := by
  unfold arpStep
  split <;> rfl

theorem perform_arp_discovery_routing (ns : NodeState) (ipc : IPCState) :
    (ns.perform_arp_discovery ipc).1.routing_table = ns.routing_table := by
  unfold NodeState.perform_arp_discovery
  split
  · rfl
  · exact foldl_preserve (arpStep ns) (fun acc => acc.1.routing_table)
      (arpStep_routing ns) ns.device.interfaces (ns, ipc)

/-- A router whose first interface is up and whose routing table holds one
route: the failing input for the route-purge claim. -/
def c5Node : NodeState :=
  { NodeState.init
      { name := "r1", device_type := "router",
        interfaces := [{ name := "eth0", ip_address := some "10.0.0.5",
                         subnet_mask := some "255.255.255.0" }] } with
    operational := true
    routing_table := [("10.0.0.0/24", "directly_connected")] }

/-- C5: contrary to the claim (and to `_flush_interface_routes`' own
docstring), no route is ever purged: the flush helper's body is `pass`.
`simulate_interface_down` (and the interface-down branch of
`simulate_interface_change`) always leave the routing table unchanged; at
the concrete failing input the interface goes down while its route
survives. -/
theorem C5_interface_down_flush_is_stub (ns : NodeState) (iname : String) (ipc : IPCState) :
    (ns.simulate_interface_down iname).routing_table = ns.routing_table
    ∧ (ns.simulate_interface_change ipc).1.routing_table = ns.routing_table
    ∧ (c5Node.simulate_interface_down "eth0").interface_states.find "eth0" = some false
    ∧ (c5Node.simulate_interface_down "eth0").routing_table
        = [("10.0.0.0/24", "directly_connected")] := by
  refine ⟨?_, ?_, rfl, rfl⟩
  · unfold NodeState.simulate_interface_down NodeState.flush_interface_routes
    split <;> rfl
  · unfold NodeState.simulate_interface_change
    split
    · rfl
    · dsimp only
      split
      · rw [perform_arp_discovery_routing]
      · rfl

/-! ## Link-failure route removal and LSA broadcast (claim C6) -/

theorem foldl_erase_find {α β : Type} [DecidableEq α] (keys : List α) (m : Dict α β) (k : α) :
    (keys.foldl Dict.erase m).find k = if k ∈ keys then none else m.find k := by
  induction keys generalizing m with
  | nil => simp
  | cons k0 rest ih =>
    rw [List.foldl_cons, ih]
    by_cases h1 : k ∈ rest
    · simp [h1]
    · by_cases h2 : k = k0
      · simp [h1, h2, Dict.find_erase]
      · simp [h1, h2, Dict.find_erase]

theorem mem_keysWhere {α β : Type} [DecidableEq α] {m : Dict α β} {p : α → β → Bool} {k : α} :
    k ∈ m.keysWhere p ↔ ∃ v, (k, v) ∈ m ∧ p k v = true := by
  unfold Dict.keysWhere
  constructor
  · intro h
    rcases List.mem_map.mp h with ⟨⟨a, b⟩, hmem, hfst⟩
    rcases List.mem_filter.mp hmem with ⟨hm, hp⟩
    cases hfst
    exact ⟨b, hm, hp⟩
  · rintro ⟨v, hm, hp⟩
    exact List.mem_map.mpr ⟨(k, v), List.mem_filter.mpr ⟨hm, hp⟩, rfl⟩

theorem send_message_queue_extend (s : IPCState) (a b : String) (m : Msg) :
    ∃ extra, (s.send_message a b m).1.message_queue = s.message_queue ++ extra
      ∧ ∀ im ∈ extra, im.message = m := by
  unfold IPCState.send_message
  split
  · exact ⟨[], by simp, by simp⟩
  · split
    · exact ⟨[], by simp, by simp⟩
    · split
      · exact ⟨[], by simp, by simp⟩
      · split
        · exact ⟨[], by simp, by simp⟩
        · refine ⟨[{ source := a, target := b, message := m, connId := _ }], rfl, ?_⟩
          intro im him
          rcases List.mem_singleton.mp him with rfl
          rfl

theorem broadcast_queue_extend (s : IPCState) (source : String) (m : Msg) :
    ∃ extra, (s.broadcast_from_node source m).message_queue = s.message_queue ++ extra
      ∧ ∀ im ∈ extra, im.message = m := by
  unfold IPCState.broadcast_from_node
  generalize s.get_neighbors source = nbs
  induction nbs generalizing s with
  | nil => exact ⟨[], by simp, by simp⟩
  | cons nb rest ih =>
    rw [List.foldl_cons]
    obtain ⟨e1, he1, hm1⟩ := send_message_queue_extend s source nb m
    obtain ⟨e2, he2, hm2⟩ := ih (s.send_message source nb m).1
    refine ⟨e1 ++ e2, ?_, ?_⟩
    · rw [he2, he1, List.append_assoc]
    · intro im him
      rcases List.mem_append.mp him with h | h
      · exact hm1 im h
      · exact hm2 im h

/-- C6: `handle_link_failure(neighbor)` removes exactly the routes whose
next hop is the failed neighbor (every other route keeps its value), and on
a router broadcasts an `ospf_lsa` whose sequence number is the integer clock
`t`, which is monotone in the wall clock. -/
theorem C6_handle_link_failure (ns : NodeState) (neighbor : String) (t : Nat)
    (ipc : IPCState) (hnd : ns.routing_table.keys.Nodup) :
    (∀ network, (ns.handle_link_failure neighbor t ipc).1.routing_table.find network
        = if ns.routing_table.find network = some neighbor then none
          else ns.routing_table.find network)
    ∧ (ns.device.device_type = "router" →
        ∃ extra, (ns.handle_link_failure neighbor t ipc).2.message_queue
            = ipc.message_queue ++ extra
          ∧ ∀ im ∈ extra, im.message = lsaMessage ns t)
    ∧ (lsaMessage ns t).sequence = some t
    ∧ (∀ t1 t2 : Nat, t1 ≤ t2 →
        (lsaMessage ns t1).sequence.getD 0 ≤ (lsaMessage ns t2).sequence.getD 0) := by
  have hrt : (ns.handle_link_failure neighbor t ipc).1.routing_table
      = (ns.routing_table.keysWhere (fun _ next_hop => next_hop == neighbor)).foldl
          Dict.erase ns.routing_table := by
    unfold NodeState.handle_link_failure
    split
    · rfl
    · rfl
  refine ⟨?_, ?_, rfl, fun t1 t2 h => h⟩
  · intro network
    rw [hrt, foldl_erase_find]
    by_cases hmem : network ∈ ns.routing_table.keysWhere
        (fun _ next_hop => next_hop == neighbor)
    · rcases mem_keysWhere.mp hmem with ⟨v, hv, hp⟩
      have hveq : v = neighbor := by simpa using hp
      subst hveq
      rw [if_pos hmem, if_pos (Dict.find_eq_some_of_mem hnd hv)]
    · rw [if_neg hmem]
      by_cases hfind : ns.routing_table.find network = some neighbor
      · exfalso
        exact hmem (mem_keysWhere.mpr
          ⟨neighbor, Dict.mem_of_find_eq_some hfind, by simp⟩)
      · rw [if_neg hfind]
  · intro hrouter
    unfold NodeState.handle_link_failure
    rw [if_pos hrouter]
    unfold NodeState.trigger_ospf_reconvergence NodeState.broadcast_message
    exact broadcast_queue_extend ipc ns.device.name (lsaMessage ns t)

/-- A router with two routes, one through the failing neighbor. -/
def c6Node : NodeState :=
  { NodeState.init
      { name := "rA", device_type := "router",
        interfaces := [{ name := "g0", ip_address := some "10.0.0.1",
                         subnet_mask := some "255.255.255.0" }] } with
    operational := true
    routing_table := [("10.5.0.0", "rB"), ("10.6.0.0", "rC")] }

/-- Witness for C6: on the concrete router, the route through `rB` is
removed, the route through `rC` keeps its value, and the LSA sequence is
the clock value 7. -/
theorem C6_handle_link_failure_witness :
    (∀ network, (c6Node.handle_link_failure "rB" 7 initIPC).1.routing_table.find network
        = if c6Node.routing_table.find network = some "rB" then none
          else c6Node.routing_table.find network)
    ∧ (c6Node.device.device_type = "router" →
        ∃ extra, (c6Node.handle_link_failure "rB" 7 initIPC).2.message_queue
            = initIPC.message_queue ++ extra
          ∧ ∀ im ∈ extra, im.message = lsaMessage c6Node 7)
    ∧ (lsaMessage c6Node 7).sequence = some 7
    ∧ (∀ t1 t2 : Nat, t1 ≤ t2 →
        (lsaMessage c6Node t1).sequence.getD 0 ≤ (lsaMessage c6Node t2).sequence.getD 0) :=
  C6_handle_link_failure c6Node "rB" 7 initIPC (by decide)

/-! ## Device-failure fault injection (claim C7) -/

theorem log_event_nodes (s : SimState) (etype message : String) (device : Option String) :
    (s.log_event etype message device).nodes = s.nodes := rfl

theorem log_event_ipc (s : SimState) (etype message : String) (device : Option String) :
    (s.log_event etype message device).ipc = s.ipc := rfl

/-- C7: injecting `device_failure` on a registered node clears its
operational flag, ARP and routing tables, brings every interface down, and
leaves every other node and the whole registry untouched. -/
theorem C7_device_failure_frame (s : SimState) (target : String) (nd : NodeState)
    (h : s.nodes.find target = some nd) :
    (∃ nd2, (s.inject_fault "device_failure" target).nodes.find target = some nd2
        ∧ nd2.operational = false
        ∧ nd2.arp_table = []
        ∧ nd2.routing_table = []
        ∧ ∀ i b, nd2.interface_states.find i = some b → b = false)
    ∧ (∀ other, other ≠ target →
        (s.inject_fault "device_failure" target).nodes.find other = s.nodes.find other)
    ∧ (s.inject_fault "device_failure" target).ipc = s.ipc := by
  have hkey : s.inject_fault "device_failure" target
      = (s.log_event "fault_injection"
          ("Injecting " ++ "device_failure" ++ " fault on " ++ target)).withNode target
          (fun nd ip => (nd.simulate_device_failure, ip)) := by
    unfold SimState.inject_fault
    rw [if_neg (fun hc => absurd hc.1 (by decide)),
        if_pos ⟨rfl, by rw [log_event_nodes, h]; rfl⟩]
  have hfind : (s.log_event "fault_injection"
      ("Injecting " ++ "device_failure" ++ " fault on " ++ target)).nodes.find target
      = some nd := by rw [log_event_nodes, h]
  rw [hkey]
  unfold SimState.withNode
  rw [hfind]
  refine ⟨⟨nd.simulate_device_failure, ?_, rfl, rfl, rfl, ?_⟩, ?_, ?_⟩
  · show ((s.log_event _ _ none).nodes.set target nd.simulate_device_failure).find target
      = some nd.simulate_device_failure
    exact Dict.find_set_self _ _ _
  · intro i b hb
    unfold NodeState.simulate_device_failure at hb
    simp only [Dict.find_mapVal] at hb
    rcases hfi : nd.interface_states.find i with _ | b0
    · rw [hfi] at hb
      cases hb
    · rw [hfi] at hb
      simp only [Option.map] at hb
      cases hb
      rfl
  · intro other hother
    show ((s.log_event _ _ none).nodes.set target nd.simulate_device_failure).find other
      = s.nodes.find other
    rw [Dict.find_set_ne _ _ _ _ hother, log_event_nodes]
  · rfl

def c7Router : NetworkDevice :=
  { name := "r1", device_type := "router", interfaces := [{ name := "g0", ip_address := some "10.0.0.1", subnet_mask := some "255.255.255.0" }] }

def c7Switch : NetworkDevice :=
  { name := "sw1", device_type := "switch", interfaces := [{ name := "e0" }] }

/-- A two-node simulator state for the C7 witness. -/
def c7Sim : SimState :=
  init_simulation [c7Router, c7Switch]
    [{ source_device := "r1", target_device := "sw1", source_interface := "g0", target_interface := "e0" }]

/-- The state of node `r1` inside `c7Sim`. -/
def c7RouterNode : NodeState :=
  { device := c7Router, started := true, interface_states := [("g0", true)] }

/-- Witness for C7 on the concrete two-node simulator, failing `r1`. -/
theorem C7_device_failure_frame_witness :
    (∃ nd2, (c7Sim.inject_fault "device_failure" "r1").nodes.find "r1" = some nd2
        ∧ nd2.operational = false
        ∧ nd2.arp_table = []
        ∧ nd2.routing_table = []
        ∧ ∀ i b, nd2.interface_states.find i = some b → b = false)
    ∧ (∀ other, other ≠ "r1" →
        (c7Sim.inject_fault "device_failure" "r1").nodes.find other
          = c7Sim.nodes.find other)
    ∧ (c7Sim.inject_fault "device_failure" "r1").ipc = c7Sim.ipc :=
  C7_device_failure_frame c7Sim "r1" c7RouterNode (by rfl)

/-! ## Unknown fault kinds and unregistered targets (claim C10) -/

/-- C10: `inject_fault` with a fault kind outside the three known ones, or
with a target that is not a registered node, appends exactly one
`fault_injection` event (and advances the clock), never raises, and leaves
the node map and the registry exactly as they were. -/
theorem C10_unknown_fault_only_logs (s : SimState) (fault_type target : String)
    (neighbor iface : Option String)
    (h : (fault_type ≠ "link_failure" ∧ fault_type ≠ "device_failure"
            ∧ fault_type ≠ "interface_down")
        ∨ s.nodes.find target = none) :
    s.inject_fault fault_type target neighbor iface
      = { s with
          events := s.events ++
            [{ timestamp := s.clock, etype := "fault_injection",
               message := "Injecting " ++ fault_type ++ " fault on " ++ target,
               device := none }]
          clock := s.clock + 1 } := by
  have hmiss : ∀ k : String,
      s.nodes.find target = none →
      ¬ (fault_type = k ∧ ((s.log_event "fault_injection"
          ("Injecting " ++ fault_type ++ " fault on " ++ target)).nodes.find
            target).isSome = true) := by
    intro k h0 hc
    have hx := hc.2
    rw [log_event_nodes, h0] at hx
    cases hx
  have hL : ¬ (fault_type = "link_failure" ∧ ((s.log_event "fault_injection"
      ("Injecting " ++ fault_type ++ " fault on " ++ target)).nodes.find
        target).isSome = true) := by
    rcases h with ⟨h1, _, _⟩ | h0
    · exact fun hc => h1 hc.1
    · exact hmiss _ h0
  have hD : ¬ (fault_type = "device_failure" ∧ ((s.log_event "fault_injection"
      ("Injecting " ++ fault_type ++ " fault on " ++ target)).nodes.find
        target).isSome = true) := by
    rcases h with ⟨_, h2, _⟩ | h0
    · exact fun hc => h2 hc.1
    · exact hmiss _ h0
  have hI : ¬ (fault_type = "interface_down" ∧ ((s.log_event "fault_injection"
      ("Injecting " ++ fault_type ++ " fault on " ++ target)).nodes.find
        target).isSome = true) := by
    rcases h with ⟨_, _, h3⟩ | h0
    · exact fun hc => h3 hc.1
    · exact hmiss _ h0
  unfold SimState.inject_fault
  rw [if_neg hL, if_neg hD, if_neg hI]
  rfl

/-- Witness for C10: a bogus fault kind on the concrete simulator appends
one `fault_injection` event and changes nothing else. -/
theorem C10_unknown_fault_only_logs_witness :
    c7Sim.inject_fault "power_surge" "r1" none none
      = { c7Sim with
          events := c7Sim.events ++
            [{ timestamp := c7Sim.clock, etype := "fault_injection",
               message := "Injecting " ++ "power_surge" ++ " fault on " ++ "r1",
               device := none }]
          clock := c7Sim.clock + 1 } :=
  C10_unknown_fault_only_logs c7Sim "power_surge" "r1" none none
    (Or.inl ⟨by decide, by decide, by decide⟩)

/-! ## Unknown scenario handling (claim C2) -/

/-- C2 (amended): an unknown scenario name does surface a configuration
error to the caller, but only after `_initialize_simulation` has already
created and started every device actor and registered every connection; the
`finally` teardown then stops the actors and clears all state, so nothing
persists after the call. -/
theorem C2_unknown_scenario_error_after_init (devices : List NetworkDevice)
    (links : List NetworkLink) (scenario : String) (r1 r2 r3 : Nat)
    (h1 : scenario ≠ "day1") (h2 : scenario ≠ "day2") :
    run_simulation devices links scenario r1 r2 r3
      = (Except.error ("Unknown scenario: " ++ scenario),
         (init_simulation devices links).cleanup_simulation) := by
  unfold run_simulation
  rw [if_neg h1, if_neg h2]

/-- Witness for C2's amended statement at a concrete topology and the
unknown scenario name day3. -/
theorem C2_unknown_scenario_error_after_init_witness :
    run_simulation [c7Router, c7Switch]
      [{ source_device := "r1", target_device := "sw1", source_interface := "g0", target_interface := "e0" }]
      "day3" 0 0 0
      = (Except.error ("Unknown scenario: " ++ "day3"),
         (init_simulation [c7Router, c7Switch]
           [{ source_device := "r1", target_device := "sw1", source_interface := "g0", target_interface := "e0" }]).cleanup_simulation) :=
  C2_unknown_scenario_error_after_init [c7Router, c7Switch]
    [{ source_device := "r1", target_device := "sw1", source_interface := "g0", target_interface := "e0" }]
    "day3" 0 0 0 (by decide) (by decide)

/-- Counterexample to C2 as stated: running the unknown scenario day3 on a
concrete two-device topology raises the configuration error, yet at the
point of the raise — after the `_initialize_simulation` call that
`run_simulation` performs before dispatching on the scenario name — the
actor `r1` has been created and started and the connection (r1, sw1) has
been registered: actors and connections do exist before the error. -/
theorem C2_counterexample :
    (run_simulation [c7Router, c7Switch]
        [{ source_device := "r1", target_device := "sw1", source_interface := "g0", target_interface := "e0" }]
        "day3" 0 0 0).1
      = Except.error "Unknown scenario: day3"
    ∧ (c7Sim.nodes.find "r1").map (fun nd => nd.started) = some true
    ∧ (c7Sim.nodes.find "sw1").map (fun nd => nd.started) = some true
    ∧ (c7Sim.ipc.connections.find ("r1", "sw1")).isSome = true
    ∧ (c7Sim.ipc.connections.find ("sw1", "r1")).isSome = true := by
  refine ⟨rfl, rfl, rfl, rfl, rfl⟩

/-! ## The day-1 scenario on the three-device topology (claim C9) -/

def day1Router : NetworkDevice :=
  { name := "r1", device_type := "router",
    interfaces := [{ name := "g0", ip_address := some "10.0.0.1", subnet_mask := some "255.255.255.0" }],
    routing_protocols := [{ protocol := "ospf", process_id := some "1", networks := ["10.0.0.0"], area := some "0" }] }

def day1Switch : NetworkDevice :=
  { name := "sw1", device_type := "switch", interfaces := [{ name := "e0" }] }

def day1Pc : NetworkDevice :=
  { name := "pc1", device_type := "pc",
    interfaces := [{ name := "e0", ip_address := some "10.0.0.2", subnet_mask := some "255.255.255.0" }] }

/-- The fully linked 3-device topology of the claim. -/
def day1Links : List NetworkLink :=
  [{ source_device := "r1", target_device := "sw1", source_interface := "g0", target_interface := "e0" },
   { source_device := "r1", target_device := "pc1", source_interface := "g0", target_interface := "e0" },
   { source_device := "sw1", target_device := "pc1", source_interface := "e0", target_interface := "e0" }]

def day1Run : Except String SimulationResult × SimState :=
  run_simulation [day1Router, day1Switch, day1Pc] day1Links "day1" 0 0 0

def day1Res : SimulationResult :=
  match day1Run.1 with
  | Except.ok r => r
  | Except.error _ => default

/-- Boolean subsequence test: the first list occurs within the second in
order (possibly with gaps). -/
def isSubseqStr : List String → List String → Bool
  | [], _ => true
  | _ :: _, [] => false
  | x :: xs, y :: ys => if x = y then isSubseqStr xs ys else isSubseqStr (x :: xs) ys

set_option maxRecDepth 40000 in
/-- C9: running scenario day1 over the fully linked router/switch/pc
topology succeeds and its event log contains, in order, the four
`phase_start` events with a `device_startup` event after the first and an
`arp_discovery` event after the second (and exactly four `phase_start`
events in total), and the returned result reports `operational = true` for
all three devices. -/
theorem C9_day1_events_and_final_state :
    day1Run.1 = Except.ok day1Res
    ∧ isSubseqStr
        ["phase_start", "device_startup", "phase_start", "arp_discovery",
         "phase_start", "phase_start"]
        (day1Res.events.map (fun e => e.etype)) = true
    ∧ (day1Res.events.filter (fun e => e.etype == "phase_start")).length = 4
    ∧ (day1Res.node_states.find "r1").map (fun st => st.operational) = some true
    ∧ (day1Res.node_states.find "sw1").map (fun st => st.operational) = some true
    ∧ (day1Res.node_states.find "pc1").map (fun st => st.operational) = some true := by
  refine ⟨rfl, rfl, rfl, rfl, rfl, rfl⟩

end NetSim
